import Mathlib

/-!
Shallow embedding of the AIDQA visual-diff engine.

The embedding covers:
* the Deno engine `comparePngExact`
  (src/supabase/functions/visual-api/visual/diff.ts and the near-duplicate
  variant in src/unnamed/part_005) — dimension guard, mismatch metrics,
  two-tone diff rendering, optional encoded diff image;
* the Node server engine `comparePngExact`
  (src/server/visual/services/comparePngExact.ts) — byte-exact per-pixel
  comparison, unconditional diff-file write, pass flag;
* the insight response handling of `generateAIInsights`
  (src/supabase/functions/visual-api/_lib/openai.ts).

JavaScript numbers are modelled with `Nat`/`Int`/`ℚ`; luminance and
brightness comparisons are carried out on integer-scaled values (the
comparisons are order-equivalent to the floating-point ones in the source
for 8-bit channel inputs).
-/

/-- One RGBA pixel, 8 bits per channel (values 0–255 in well-formed images). -/
structure Pixel where
  r : Nat
  g : Nat
  b : Nat
  a : Nat
deriving Repr, DecidableEq

/-- A decoded raster image: width, height and a row-major RGBA pixel buffer.
Well-formed images satisfy `pixels.length = width * height`. -/
structure RasterImage where
  width : Nat
  height : Nat
  pixels : List Pixel
deriving Repr, DecidableEq

/-- `pixels.length = width * height`, the decode invariant of §3. -/
def RasterImage.wf (img : RasterImage) : Prop :=
  img.pixels.length = img.width * img.height

/-- Absolute difference of two channel values. -/
def chDist (x y : Nat) : Nat := max x y - min x y

/-- Options handed to the pixel classifier (threshold, alpha tolerance,
anti-aliasing inclusion), as passed by the callers in diff.ts. -/
structure ClassifyOptions where
  threshold : ℚ
  alphaTol : ℚ
  includeAA : Bool
deriving Repr, DecidableEq

/-- Blend one channel of a possibly transparent pixel onto a white
background: `255 + (c - 255) * a / 255`. -/
def blendChannel (c a : Nat) : ℚ :=
  255 + ((c : ℚ) - 255) * (a : ℚ) / 255

/-- Modelled from the spec (§4.2): luma of a blended pixel in a Y/I/Q-style
perceptual space. The pixel classifier itself (the `pixelmatch` dependency)
is not part of the repository source, so its perceptual distance is modelled
from the spec's description: a perceptual color distance over
alpha-blended channels. -/
def lumaY (r g b : ℚ) : ℚ := (299 * r + 587 * g + 114 * b) / 1000

/-- Modelled from the spec (§4.2): first chroma component. -/
def chromaI (r g b : ℚ) : ℚ := (596 * r - 274 * g - 322 * b) / 1000

/-- Modelled from the spec (§4.2): second chroma component. -/
def chromaQ (r g b : ℚ) : ℚ := (211 * r - 523 * g + 312 * b) / 1000

/-- Modelled from the spec (§4.2): perceptual color distance between two
pixels — a positively weighted sum of squared luma/chroma deltas of the
white-blended channels. Zero exactly when the blended colors agree. -/
def colorDelta (p q : Pixel) : ℚ :=
  let pr := blendChannel p.r p.a
  let pg := blendChannel p.g p.a
  let pb := blendChannel p.b p.a
  let qr := blendChannel q.r q.a
  let qg := blendChannel q.g q.a
  let qb := blendChannel q.b q.a
  let dy := lumaY pr pg pb - lumaY qr qg qb
  let di := chromaI pr pg pb - chromaI qr qg qb
  let dq := chromaQ pr pg pb - chromaQ qr qg qb
  (5053 * dy ^ 2 + 2990 * di ^ 2 + 1957 * dq ^ 2) / 10000

/-- Modelled from the spec (§4.2/§6): the tolerance bound derived from the
configurable `threshold` fraction; it grows with the threshold. -/
def maxDelta (threshold : ℚ) : ℚ := 35215 * threshold ^ 2

/-- Modelled from the spec (§4.2): whether the two pixels differ only in
alpha by at most the alpha tolerance (such deltas are ignored). -/
def alphaOnlySmall (o : ClassifyOptions) (p q : Pixel) : Bool :=
  p.r == q.r && p.g == q.g && p.b == q.b &&
    decide ((chDist p.a q.a : ℚ) ≤ o.alphaTol * 255)

/-- Modelled from the spec (§4.2): classification of one pixel position.
`aa` says whether a neighbor-aware detector attributes the difference to
anti-aliasing; with `includeAA = true` (the callers' setting) such pixels
still count. A position is a mismatch when the perceptual distance exceeds
the threshold-derived bound, the difference is not an ignored small
alpha-only delta, and it is not an excluded anti-aliasing artifact. -/
def pixelMismatch (o : ClassifyOptions) (aa : Bool) (p q : Pixel) : Bool :=
  decide (colorDelta p q > maxDelta o.threshold) &&
    !(alphaOnlySmall o p q) && (o.includeAA || !aa)

/-- Modelled from the spec (§4.2): mismatched-pixel count of
`classify(baseline, current, options)`. `aaDetect` is the neighbor-aware
anti-aliasing detector, abstracted as a per-position flag (it does not
depend on the threshold). -/
def classifyCount (o : ClassifyOptions) (aaDetect : Nat → Bool)
    (baseline current : RasterImage) : Nat :=
  ((baseline.pixels.zip current.pixels).enum.countP
    fun pi => pixelMismatch o (aaDetect pi.1) pi.2.1 pi.2.2)

/-- Modelled from the spec (§4.2/§3): the raw diff mask. A mismatched
position gets nonzero alpha (with the caller's placeholder diff color);
an unchanged position keeps alpha 0. -/
def classifyMask (o : ClassifyOptions) (aaDetect : Nat → Bool)
    (baseline current : RasterImage) : List Pixel :=
  ((baseline.pixels.zip current.pixels).enum.map
    fun pi =>
      if pixelMismatch o (aaDetect pi.1) pi.2.1 pi.2.2 then
        ⟨255, 0, 0, 255⟩
      else
        ⟨0, 0, 0, 0⟩)

/-- Alpha-gated luminance of a source pixel, scaled by 1000
(diff.ts: `bA > 0 ? 0.299*r + 0.587*g + 0.114*b : 0`; comparing the scaled
integer values is order-equivalent to the source's comparison). -/
def lum1000 (p : Pixel) : Nat :=
  if p.a > 0 then 299 * p.r + 587 * p.g + 114 * p.b else 0

/-- Channel-sum brightness of a pixel, scaled by 3
(part_005: `(r + g + b) / 3`; comparing the sums is order-equivalent). -/
def brightness3 (p : Pixel) : Nat := p.r + p.g + p.b

/-- Sum of absolute RGB channel differences
(part_005: `Math.abs(bR-cR) + Math.abs(bG-cG) + Math.abs(bB-cB)`). -/
def rgbDist (p q : Pixel) : Nat :=
  chDist p.r q.r + chDist p.g q.g + chDist p.b q.b

/-- Two-tone recoloring of one mask pixel, per
src/supabase/functions/visual-api/visual/diff.ts lines 59–81: positions the
mask leaves at alpha 0 are skipped (`continue`); flagged positions become
green `(0,200,0)` when the baseline's alpha-gated luminance is strictly
higher than the current's, red `(220,0,0)` otherwise, both at alpha 200. -/
def renderPixelDeno (b c m : Pixel) : Pixel :=
  if m.a = 0 then m
  else if lum1000 b > lum1000 c then ⟨0, 200, 0, 200⟩
  else ⟨220, 0, 0, 200⟩

/-- Two-tone recoloring of one mask pixel, per the variant engine in
src/unnamed/part_005 lines 108–152: unflagged positions are written fully
transparent; flagged positions with RGB distance below 30 become yellow
`(255,230,0,220)`; otherwise green `(0,255,50,240)` when the baseline is
darker (smaller brightness) than the current, red `(255,0,50,240)` when
the current is darker or equal. -/
def renderPixelVariant (b c m : Pixel) : Pixel :=
  if m.a = 0 then ⟨0, 0, 0, 0⟩
  else if rgbDist b c < 30 then ⟨255, 230, 0, 220⟩
  else if brightness3 b < brightness3 c then ⟨0, 255, 50, 240⟩
  else ⟨255, 0, 50, 240⟩

/-- The full diff.ts rendering pass over the buffers. -/
def renderDeno (baseline current : RasterImage) (mask : List Pixel) :
    List Pixel :=
  ((baseline.pixels.zip current.pixels).zip mask).map
    fun t => renderPixelDeno t.1.1 t.1.2 t.2

/-- The full part_005 rendering pass over the buffers. -/
def renderVariant (baseline current : RasterImage) (mask : List Pixel) :
    List Pixel :=
  ((baseline.pixels.zip current.pixels).zip mask).map
    fun t => renderPixelVariant t.1.1 t.1.2 t.2

/-- Errors thrown by the Deno engine: the dimension-mismatch error
(diff.ts lines 19–23, carrying baseline and current dimensions in its
message) and a decode failure. -/
inductive DenoError where
  | dimensionMismatch (baselineWidth baselineHeight currentWidth
      currentHeight : Nat)
  | codecError
deriving Repr, DecidableEq

/-- The `DiffResult` record of src/unnamed/part_002 / diff.ts:
mismatch count, rounded mismatch percentage, and the encoded diff PNG
(null when nothing mismatched). -/
structure DiffResult where
  diffPixels : Nat
  mismatchPercentage : ℚ
  diffPngBytes : Option (List Nat)
deriving Repr, DecidableEq

/-- `parseFloat(x.toFixed(4))`: rounding to four decimal places. -/
def roundTo4 (x : ℚ) : ℚ := ((⌊x * 10000 + 1 / 2⌋ : ℚ)) / 10000

/-- The Deno engine `comparePngExact` of
src/supabase/functions/visual-api/visual/diff.ts, on decoded images:
dimension guard first, then the pixel classification, the percentage with
its zero-division guard (`totalPixels > 0 ? ... : 0`), and — only when at
least one pixel mismatched — the two-tone re-render and the encode.
`enc` is the PNG encoder (imagescript), abstracted as a function. -/
def comparePngExact (enc : RasterImage → List Nat) (o : ClassifyOptions)
    (aaDetect : Nat → Bool) (baseline current : RasterImage) :
    Except DenoError DiffResult :=
  if current.width ≠ baseline.width ∨ current.height ≠ baseline.height then
    .error (.dimensionMismatch baseline.width baseline.height
      current.width current.height)
  else
    let mismatchPixels := classifyCount o aaDetect baseline current
    let totalPixels := baseline.width * baseline.height
    let mismatchPercentage : ℚ :=
      if totalPixels > 0 then (mismatchPixels : ℚ) / (totalPixels : ℚ) * 100
      else 0
    let diffPngBytes : Option (List Nat) :=
      if mismatchPixels > 0 then
        some (enc ⟨baseline.width, baseline.height,
          renderDeno baseline current
            (classifyMask o aaDetect baseline current)⟩)
      else none
    .ok { diffPixels := mismatchPixels,
          mismatchPercentage := roundTo4 mismatchPercentage,
          diffPngBytes := diffPngBytes }

/-- The Deno engine starting from PNG byte buffers: `Image.decode` on both
inputs (abstracted as `dec`), then the comparison on the decoded images. -/
def comparePngExactBytes (dec : List Nat → Option RasterImage)
    (enc : RasterImage → List Nat) (o : ClassifyOptions)
    (aaDetect : Nat → Bool) (baselinePng currentPng : List Nat) :
    Except DenoError DiffResult :=
  match dec baselinePng, dec currentPng with
  | some baselineImg, some currentImg =>
      comparePngExact enc o aaDetect baselineImg currentImg
  | _, _ => .error .codecError

/-- The `DimensionMismatchError` of
src/server/visual/services/comparePngExact.ts lines 6–12, with its fixed
`code` and the dimensions carried by the message of lines 41–45. -/
structure DimensionMismatchError where
  code : String
  baselineWidth : Nat
  baselineHeight : Nat
  currentWidth : Nat
  currentHeight : Nat
deriving Repr, DecidableEq

/-- The record returned by the server engine, together with the pixel
buffer of the diff PNG the function writes to `diffPath` (`none` would mean
no file was written; the source writes unconditionally). -/
structure ServerCompareResult where
  mismatchPixelCount : Nat
  totalPixels : Nat
  mismatchPercent : ℚ
  pass : Bool
  diffFile : Option (List Pixel)
deriving Repr, DecidableEq

/-- Byte-exact per-pixel comparison of the server engine:
`br !== cr || bg !== cg || bb !== cb || ba !== ca`. -/
def serverPixelMismatch (p q : Pixel) : Bool :=
  p.r != q.r || p.g != q.g || p.b != q.b || p.a != q.a

/-- The server engine `comparePngExact` of
src/server/visual/services/comparePngExact.ts, on decoded images: dimension
guard with `DimensionMismatchError`, byte-exact per-pixel walk counting
mismatches and painting them opaque red `(255,0,0,255)` on an
all-transparent diff, unconditional write of that diff PNG, then
`pass = mismatchPixelCount === 0` and the zero-guarded percentage. -/
def serverComparePngExact (baseline current : RasterImage) :
    Except DimensionMismatchError ServerCompareResult :=
  if baseline.width ≠ current.width ∨ baseline.height ≠ current.height then
    .error ⟨"DIMENSION_MISMATCH", baseline.width, baseline.height,
      current.width, current.height⟩
  else
    let totalPixels := baseline.width * baseline.height
    let pairs := baseline.pixels.zip current.pixels
    let mismatchPixelCount := pairs.countP fun pq =>
      serverPixelMismatch pq.1 pq.2
    let diffData := pairs.map fun pq =>
      if serverPixelMismatch pq.1 pq.2 then
        (⟨255, 0, 0, 255⟩ : Pixel)
      else
        (⟨0, 0, 0, 0⟩ : Pixel)
    let pass := mismatchPixelCount == 0
    let mismatchPercent : ℚ :=
      if totalPixels = 0 then 0
      else (mismatchPixelCount : ℚ) / (totalPixels : ℚ) * 100
    .ok { mismatchPixelCount := mismatchPixelCount,
          totalPixels := totalPixels,
          mismatchPercent := mismatchPercent,
          pass := pass,
          diffFile := some diffData }

/-- One issue record of the `AIInsights` payload
(src/unnamed/part_002 lines 45–52). Severity is kept as the raw string the
response carried, since the source applies no local validation to it. -/
structure AIIssue where
  title : String
  location : Option String
  category : String
  severity : String
  evidence : String
  recommendation : String
deriving Repr, DecidableEq

/-- The `AIInsights` payload (src/unnamed/part_002 lines 37–43), with the
`severity` field as the raw string carried by the classifier response. -/
structure AIInsights where
  summary : String
  severity : String
  issues : List AIIssue
  quickWins : List String
  verdict : Option String
deriving Repr, DecidableEq

/-- The severity enum declared in the response JSON schema sent to the
external classifier by src/supabase/functions/visual-api/_lib/openai.ts
lines 101–105. -/
def severityEnumDeclared : List String := ["pass", "minor", "major", "fail"]

/-- The canonical severity enum the spec adopts (§3, InsightResult). -/
def severityEnumSpec : List String := ["pass", "minor", "major", "critical"]

/-- The local response handling of `generateAIInsights`
(src/supabase/functions/visual-api/_lib/openai.ts lines 148–162): a
non-success HTTP response and a missing `choices[0].message.content` are
surfaced as errors; otherwise the parsed content is returned to the caller
unchanged — the source performs no schema or severity validation of its
own (schema enforcement is requested from the external service via the
strict JSON schema). `content` is the parsed message content. -/
def generateAIInsightsLocal (responseOk : Bool)
    (content : Option AIInsights) : Except String AIInsights :=
  if !responseOk then .error "OpenAI API error"
  else
    match content with
    | none => .error "No content in OpenAI response"
    | some insights => .ok insights

/-! ### Supporting lemmas -/

lemma colorDelta_self (p : Pixel) : colorDelta p p = 0 := by
  simp [colorDelta]

lemma maxDelta_nonneg (t : ℚ) : 0 ≤ maxDelta t := by
  unfold maxDelta
  positivity

lemma pixelMismatch_self (o : ClassifyOptions) (aa : Bool) (p : Pixel) :
    pixelMismatch o aa p p = false := by
  unfold pixelMismatch
  rw [colorDelta_self]
  simp [not_lt_of_le (maxDelta_nonneg o.threshold)]

lemma zip_self_eq_map (l : List Pixel) : l.zip l = l.map fun a => (a, a) := by
  induction l with
  | nil => rfl
  | cons a l ih => simp [List.zip_cons_cons, ih]

lemma classifyCount_self (o : ClassifyOptions) (aaDetect : Nat → Bool)
    (A : RasterImage) : classifyCount o aaDetect A A = 0 := by
  unfold classifyCount
  rw [List.countP_eq_zero]
  intro pi hpi
  rw [zip_self_eq_map] at hpi
  have h2 := List.mem_enum_iff_getElem?.mp hpi
  rw [List.getElem?_map] at h2
  cases hga : A.pixels[pi.1]? with
  | none => rw [hga] at h2; simp at h2
  | some a =>
    rw [hga] at h2
    simp only [Option.map_some', Option.some.injEq] at h2
    rw [← h2]
    simp [pixelMismatch_self]

lemma roundTo4_zero : roundTo4 0 = 0 := by
  unfold roundTo4
  norm_num

lemma classifyMask_length (o : ClassifyOptions) (aaDetect : Nat → Bool)
    (baseline current : RasterImage) :
    (classifyMask o aaDetect baseline current).length =
      (baseline.pixels.zip current.pixels).length := by
  simp [classifyMask]

lemma renderDeno_length (baseline current : RasterImage) (mask : List Pixel)
    (h : mask.length = (baseline.pixels.zip current.pixels).length) :
    (renderDeno baseline current mask).length =
      (baseline.pixels.zip current.pixels).length := by
  simp [renderDeno, h]

lemma renderVariant_length (baseline current : RasterImage)
    (mask : List Pixel)
    (h : mask.length = (baseline.pixels.zip current.pixels).length) :
    (renderVariant baseline current mask).length =
      (baseline.pixels.zip current.pixels).length := by
  simp [renderVariant, h]

/-! ### Concrete fixtures for witnesses -/

/-- The classifier options diff.ts passes:
threshold 0.1, alpha 0.1, includeAA true. -/
def optsDefault : ClassifyOptions := ⟨1 / 10, 1 / 10, true⟩

/-- An anti-aliasing detector flagging nothing, for concrete evaluations. -/
def noAA : Nat → Bool := fun _ => false

/-- A concrete encoder for witness evaluations. -/
def encDims : RasterImage → List Nat := fun img => [img.width, img.height]

/-- A fully opaque black pixel. -/
def pxBlack : Pixel := ⟨0, 0, 0, 255⟩

/-- A fully opaque white pixel. -/
def pxWhite : Pixel := ⟨255, 255, 255, 255⟩

/-! ### Claims -/

/-- Claim C1: for every pair of decoded images whose widths or heights
differ, both engines fail with a dimension-mismatch error carrying both
sets of dimensions, for arbitrary pixel buffers (so before any per-pixel
work), and return no partial result (the error constructor carries no
counts and no diff image). -/
theorem dimensionMismatch_failsFast (enc : RasterImage → List Nat)
    (o : ClassifyOptions) (aaDetect : Nat → Bool)
    (bw bh cw ch : Nat) (bpix cpix : List Pixel)
    (h : bw ≠ cw ∨ bh ≠ ch) :
    comparePngExact enc o aaDetect ⟨bw, bh, bpix⟩ ⟨cw, ch, cpix⟩ =
      .error (.dimensionMismatch bw bh cw ch) ∧
    serverComparePngExact ⟨bw, bh, bpix⟩ ⟨cw, ch, cpix⟩ =
      .error ⟨"DIMENSION_MISMATCH", bw, bh, cw, ch⟩ := by
  constructor
  · unfold comparePngExact
    split
    · rfl
    · next hc => exact absurd (h.imp Ne.symm Ne.symm) hc
  · unfold serverComparePngExact
    split
    · rfl
    · next hc => exact absurd h hc

/-- Witness for C1 at a concrete 1×1 versus 2×1 pair. -/
theorem dimensionMismatch_failsFast_witness :
    comparePngExact encDims optsDefault noAA ⟨1, 1, [pxBlack]⟩
        ⟨2, 1, [pxWhite, pxWhite]⟩ =
      .error (.dimensionMismatch 1 1 2 1) ∧
    serverComparePngExact ⟨1, 1, [pxBlack]⟩ ⟨2, 1, [pxWhite, pxWhite]⟩ =
      .error ⟨"DIMENSION_MISMATCH", 1, 1, 2, 1⟩ :=
  dimensionMismatch_failsFast encDims optsDefault noAA 1 1 2 1 [pxBlack]
    [pxWhite, pxWhite] (by decide)

/-- Claim C3: whenever the server engine returns a result, its pass flag is
true exactly when the mismatched-pixel count is zero, and any nonzero
count yields pass = false. -/
theorem pass_iff_zero_mismatch (baseline current : RasterImage)
    (r : ServerCompareResult)
    (h : serverComparePngExact baseline current = .ok r) :
    (r.pass = true ↔ r.mismatchPixelCount = 0) ∧
    (r.mismatchPixelCount ≠ 0 → r.pass = false) := by
  unfold serverComparePngExact at h
  split at h
  · simp at h
  · dsimp only at h
    rw [Except.ok.injEq] at h
    subst h
    refine ⟨by simp, fun hne => by simp [hne]⟩

/-- Witness for C3 at a concrete 1×1 pair with one differing pixel. -/
theorem pass_iff_zero_mismatch_witness :
    ((ServerCompareResult.mk 1 1 100 false (some [⟨255, 0, 0, 255⟩])).pass
        = true ↔
      (ServerCompareResult.mk 1 1 100 false
        (some [⟨255, 0, 0, 255⟩])).mismatchPixelCount = 0) ∧
    ((ServerCompareResult.mk 1 1 100 false
        (some [⟨255, 0, 0, 255⟩])).mismatchPixelCount ≠ 0 →
      (ServerCompareResult.mk 1 1 100 false
        (some [⟨255, 0, 0, 255⟩])).pass = false) :=
  pass_iff_zero_mismatch ⟨1, 1, [pxBlack]⟩ ⟨1, 1, [pxWhite]⟩ _
    (by simp [serverComparePngExact, serverPixelMismatch, pxBlack, pxWhite])

/-- Claim C8: comparing any image against itself, for any options, any
anti-aliasing detector and any encoder, yields zero mismatched pixels, a
zero percentage and no diff image. -/
theorem compare_self_clean (enc : RasterImage → List Nat)
    (o : ClassifyOptions) (aaDetect : Nat → Bool) (A : RasterImage) :
    comparePngExact enc o aaDetect A A =
      .ok { diffPixels := 0, mismatchPercentage := 0,
            diffPngBytes := none } := by
  unfold comparePngExact
  rw [if_neg (by simp)]
  dsimp only
  rw [classifyCount_self]
  simp [roundTo4_zero]

/-- 1×1 all-black image. -/
def imgB : RasterImage := ⟨1, 1, [pxBlack]⟩

/-- 1×1 all-white image. -/
def imgW : RasterImage := ⟨1, 1, [pxWhite]⟩

lemma pixelMismatch_bw :
    pixelMismatch optsDefault false pxBlack pxWhite = true := by
  norm_num [pixelMismatch, alphaOnlySmall, colorDelta, blendChannel, lumaY,
    chromaI, chromaQ, maxDelta, optsDefault, pxBlack, pxWhite, chDist]

lemma classifyCount_bw : classifyCount optsDefault noAA imgB imgW = 1 := by
  simp [classifyCount, imgB, imgW, noAA, pixelMismatch_bw]

lemma comparePng_bw :
    comparePngExact encDims optsDefault noAA imgB imgW =
      .ok ⟨1, 100, some [1, 1]⟩ := by
  unfold comparePngExact
  rw [if_neg (by simp [imgB, imgW])]
  dsimp only
  rw [classifyCount_bw]
  norm_num [roundTo4, classifyMask, renderDeno, renderPixelDeno, encDims,
    imgB, imgW, noAA, pixelMismatch_bw, lum1000, pxBlack, pxWhite]

/-- Claim C4 counterexample: on a pair of identical 1×1 images the server
engine reports zero mismatched pixels and still writes a diff PNG (a fully
transparent one) to `diffPath`, so a diff image is produced with no
mismatch. -/
theorem serverDiff_written_at_zero_mismatch :
    serverComparePngExact imgB imgB =
      .ok ⟨0, 1, 0, true, some [⟨0, 0, 0, 0⟩]⟩ ∧
    (ServerCompareResult.mk 0 1 0 true
      (some [⟨0, 0, 0, 0⟩])).mismatchPixelCount = 0 ∧
    (ServerCompareResult.mk 0 1 0 true
      (some [⟨0, 0, 0, 0⟩])).diffFile ≠ none := by
  refine ⟨?_, rfl, by simp⟩
  simp [serverComparePngExact, serverPixelMismatch, imgB, pxBlack]

/-- Claim C4 as amended: in the Deno engine the returned `diffPngBytes` is
null exactly when the mismatched-pixel count is zero; the server engine,
however, always writes a diff PNG file, also when nothing mismatched. -/
theorem diffImage_iff_mismatch :
    (∀ (enc : RasterImage → List Nat) (o : ClassifyOptions)
        (aaDetect : Nat → Bool) (baseline current : RasterImage)
        (r : DiffResult),
      comparePngExact enc o aaDetect baseline current = .ok r →
      (r.diffPngBytes = none ↔ r.diffPixels = 0)) ∧
    (∀ (baseline current : RasterImage) (r : ServerCompareResult),
      serverComparePngExact baseline current = .ok r →
      r.diffFile ≠ none) := by
  constructor
  · intro enc o aaDetect baseline current r h
    unfold comparePngExact at h
    split at h
    · simp at h
    · dsimp only at h
      rw [Except.ok.injEq] at h
      subst h
      dsimp only
      split
      · next hpos =>
          simp only [Option.some_ne_none, false_iff]
          omega
      · next hneg =>
          simp only [true_iff]
          omega
  · intro baseline current r h
    unfold serverComparePngExact at h
    split at h
    · simp at h
    · dsimp only at h
      rw [Except.ok.injEq] at h
      subst h
      simp

/-- Witness for the amended C4: the Deno engine at a mismatching 1×1 pair
(diff image present, count 1) and the server engine at an identical 1×1
pair (diff file written). -/
theorem diffImage_iff_mismatch_witness :
    ((DiffResult.mk 1 100 (some [1, 1])).diffPngBytes = none ↔
      (DiffResult.mk 1 100 (some [1, 1])).diffPixels = 0) ∧
    (ServerCompareResult.mk 0 1 0 true
      (some [⟨0, 0, 0, 0⟩])).diffFile ≠ none :=
  ⟨diffImage_iff_mismatch.1 encDims optsDefault noAA imgB imgW _
      comparePng_bw,
   diffImage_iff_mismatch.2 imgB imgB _
      (by simp [serverComparePngExact, serverPixelMismatch, imgB, pxBlack])⟩

/-- 0×0 image with an empty pixel buffer. -/
def img0 : RasterImage := ⟨0, 0, []⟩

/-- Claim C9: when the two images have equal dimensions and the total pixel
count is zero, both engines still return a result whose mismatch
percentage is exactly 0 (the embedded guards return 0 without dividing). -/
theorem zeroTotal_percent_zero (enc : RasterImage → List Nat)
    (o : ClassifyOptions) (aaDetect : Nat → Bool)
    (baseline current : RasterImage)
    (hw : current.width = baseline.width)
    (hh : current.height = baseline.height)
    (h0 : baseline.width * baseline.height = 0) :
    (∀ r : DiffResult,
      comparePngExact enc o aaDetect baseline current = .ok r →
      r.mismatchPercentage = 0) ∧
    (∀ r : ServerCompareResult,
      serverComparePngExact baseline current = .ok r →
      r.mismatchPercent = 0) := by
  constructor
  · intro r h
    unfold comparePngExact at h
    rw [if_neg (by simp [hw, hh])] at h
    dsimp only at h
    rw [Except.ok.injEq] at h
    subst h
    dsimp only
    rw [h0]
    simpa using roundTo4_zero
  · intro r h
    unfold serverComparePngExact at h
    rw [if_neg (by simp [hw, hh])] at h
    dsimp only at h
    rw [Except.ok.injEq] at h
    subst h
    dsimp only
    rw [if_pos h0]

/-- Witness for C9 at a concrete 0×0 pair. -/
theorem zeroTotal_percent_zero_witness :
    (DiffResult.mk 0 0 none).mismatchPercentage = 0 ∧
    (ServerCompareResult.mk 0 0 0 true (some [])).mismatchPercent = 0 :=
  ⟨(zeroTotal_percent_zero encDims optsDefault noAA img0 img0
      rfl rfl rfl).1 _
      (by norm_num [comparePngExact, img0, classifyCount, roundTo4]),
   (zeroTotal_percent_zero encDims optsDefault noAA img0 img0
      rfl rfl rfl).2 _
      (by simp [serverComparePngExact, img0])⟩

/-- Claim C7: for a fixed input pair, fixed alpha tolerance, fixed
anti-aliasing setting and detector, raising the threshold never increases
the mismatched-pixel count (equivalently, lowering it never decreases
it). -/
theorem mismatchCount_antitone_threshold (alphaTol : ℚ) (inc : Bool)
    (aaDetect : Nat → Bool) (baseline current : RasterImage)
    (t₁ t₂ : ℚ) (h0 : 0 ≤ t₁) (ht : t₁ ≤ t₂) :
    classifyCount ⟨t₂, alphaTol, inc⟩ aaDetect baseline current ≤
      classifyCount ⟨t₁, alphaTol, inc⟩ aaDetect baseline current := by
  unfold classifyCount
  apply List.countP_mono_left
  intro pi _ h
  unfold pixelMismatch at h ⊢
  simp only [Bool.and_eq_true, decide_eq_true_eq] at h ⊢
  obtain ⟨⟨hgt, halpha⟩, haa⟩ := h
  refine ⟨⟨lt_of_le_of_lt ?_ hgt, halpha⟩, haa⟩
  show maxDelta t₁ ≤ maxDelta t₂
  unfold maxDelta
  have hsq : t₁ ^ 2 ≤ t₂ ^ 2 := pow_le_pow_left₀ h0 ht 2
  linarith

/-- Witness for C7: thresholds 0 ≤ 1 on the 1×1 black/white pair. -/
theorem mismatchCount_antitone_threshold_witness :
    classifyCount ⟨1, 1 / 10, true⟩ noAA imgB imgW ≤
      classifyCount ⟨0, 1 / 10, true⟩ noAA imgB imgW :=
  mismatchCount_antitone_threshold (1 / 10) true noAA imgB imgW 0 1
    (by norm_num) (by norm_num)

lemma getD_map_zip (pairs : List (Pixel × Pixel)) (mask : List Pixel)
    (f : (Pixel × Pixel) × Pixel → Pixel) (d : Pixel) (dp : Pixel × Pixel)
    (i : Nat) (hi : i < pairs.length) (hm : mask.length = pairs.length) :
    ((pairs.zip mask).map f).getD i d =
      f (pairs.getD i dp, mask.getD i d) := by
  have hz : i < (pairs.zip mask).length := by
    rw [List.length_zip, hm]
    omega
  rw [List.getD_eq_getElem _ _ (by simpa using hz), List.getElem_map,
    List.getElem_zip, List.getD_eq_getElem _ _ hi,
    List.getD_eq_getElem _ _ (hm ▸ hi)]

lemma classifyMask_getD (o : ClassifyOptions) (aaDetect : Nat → Bool)
    (baseline current : RasterImage) (i : Nat) (d : Pixel)
    (hi : i < (baseline.pixels.zip current.pixels).length) :
    (classifyMask o aaDetect baseline current).getD i d =
      if pixelMismatch o (aaDetect i)
          ((baseline.pixels.zip current.pixels).getD i (pxBlack, pxBlack)).1
          ((baseline.pixels.zip current.pixels).getD i (pxBlack, pxBlack)).2
      then ⟨255, 0, 0, 255⟩ else ⟨0, 0, 0, 0⟩ := by
  unfold classifyMask
  rw [List.getD_eq_getElem _ _ (by simpa using hi), List.getElem_map,
    List.getElem_enum, List.getD_eq_getElem _ _ hi]

/-- Claim C6: every pixel position the classifier does not flag as a
mismatch is fully transparent (alpha 0) in the rendered diff buffer, in
both the diff.ts renderer and the part_005 renderer. -/
theorem unflagged_pixels_transparent (o : ClassifyOptions)
    (aaDetect : Nat → Bool) (baseline current : RasterImage) (i : Nat)
    (hi : i < (baseline.pixels.zip current.pixels).length)
    (hflag : pixelMismatch o (aaDetect i)
      ((baseline.pixels.zip current.pixels).getD i (pxBlack, pxBlack)).1
      ((baseline.pixels.zip current.pixels).getD i (pxBlack, pxBlack)).2
      = false) :
    ((renderDeno baseline current
      (classifyMask o aaDetect baseline current)).getD i pxWhite).a = 0 ∧
    ((renderVariant baseline current
      (classifyMask o aaDetect baseline current)).getD i pxWhite).a = 0 := by
  have hm := classifyMask_length o aaDetect baseline current
  constructor
  · unfold renderDeno
    rw [getD_map_zip _ _ _ pxWhite (pxBlack, pxBlack) i hi hm,
      classifyMask_getD o aaDetect baseline current i pxWhite hi,
      if_neg (by simp only [hflag]; simp)]
    simp [renderPixelDeno]
  · unfold renderVariant
    rw [getD_map_zip _ _ _ pxWhite (pxBlack, pxBlack) i hi hm,
      classifyMask_getD o aaDetect baseline current i pxWhite hi,
      if_neg (by simp only [hflag]; simp)]
    simp [renderPixelVariant]

/-- Witness for C6: position 0 of an identical 1×1 pair is unflagged and
rendered transparent by both renderers. -/
theorem unflagged_pixels_transparent_witness :
    ((renderDeno imgB imgB
      (classifyMask optsDefault noAA imgB imgB)).getD 0 pxWhite).a = 0 ∧
    ((renderVariant imgB imgB
      (classifyMask optsDefault noAA imgB imgB)).getD 0 pxWhite).a = 0 :=
  unflagged_pixels_transparent optsDefault noAA imgB imgB 0
    (by simp [imgB]) (by simp [imgB, noAA, pixelMismatch_self])

/-- Claim C2 counterexample: at a flagged pixel where the baseline (black)
is darker than the current (white) — a non-subtle difference — the diff.ts
renderer outputs red `(220,0,0)`, not the green the claim requires. -/
theorem greenOnDarkerBaseline_counterexample :
    lum1000 pxBlack < lum1000 pxWhite ∧
    brightness3 pxBlack < brightness3 pxWhite ∧
    30 ≤ rgbDist pxBlack pxWhite ∧
    renderPixelDeno pxBlack pxWhite ⟨255, 0, 0, 255⟩ = ⟨220, 0, 0, 200⟩ ∧
    renderPixelDeno pxBlack pxWhite ⟨255, 0, 0, 255⟩ ≠ ⟨0, 200, 0, 200⟩ := by
  decide

/-- Claim C2 as amended: the part_005 renderer colors a flagged, non-subtle
pixel green exactly when the baseline is darker (lower brightness) than
the current, red otherwise; the diff.ts renderer uses the reverse rule,
green exactly when the current is darker (lower alpha-gated luminance)
than the baseline, red otherwise. -/
theorem twoTone_direction :
    (∀ b c m : Pixel, m.a ≠ 0 → 30 ≤ rgbDist b c →
      renderPixelVariant b c m =
        if brightness3 b < brightness3 c then ⟨0, 255, 50, 240⟩
        else ⟨255, 0, 50, 240⟩) ∧
    (∀ b c m : Pixel, m.a ≠ 0 →
      renderPixelDeno b c m =
        if lum1000 c < lum1000 b then ⟨0, 200, 0, 200⟩
        else ⟨220, 0, 0, 200⟩) := by
  constructor
  · intro b c m hm hd
    unfold renderPixelVariant
    rw [if_neg hm, if_neg (by omega)]
  · intro b c m hm
    unfold renderPixelDeno
    rw [if_neg hm]

/-- Witness for the amended C2 at the black/white pixel pair. -/
theorem twoTone_direction_witness :
    (renderPixelVariant pxBlack pxWhite ⟨255, 0, 0, 255⟩ =
      if brightness3 pxBlack < brightness3 pxWhite then ⟨0, 255, 50, 240⟩
      else ⟨255, 0, 50, 240⟩) ∧
    (renderPixelDeno pxBlack pxWhite ⟨255, 0, 0, 255⟩ =
      if lum1000 pxWhite < lum1000 pxBlack then ⟨0, 200, 0, 200⟩
      else ⟨220, 0, 0, 200⟩) :=
  ⟨twoTone_direction.1 pxBlack pxWhite ⟨255, 0, 0, 255⟩ (by decide)
      (by decide),
   twoTone_direction.2 pxBlack pxWhite ⟨255, 0, 0, 255⟩ (by decide)⟩

/-- Claim C5 counterexample: a parsed classifier response carrying the
severity "fail" — inside the schema enum openai.ts declares, but outside
the spec's {pass, minor, major, critical} — is returned to the caller by
`generateAIInsights`, not rejected. -/
theorem severityValidation_counterexample :
    generateAIInsightsLocal true
        (some ⟨"changed", "fail", [], [], none⟩) =
      .ok ⟨"changed", "fail", [], [], none⟩ ∧
    "fail" ∈ severityEnumDeclared ∧
    "fail" ∉ severityEnumSpec := by
  refine ⟨rfl, by simp [severityEnumDeclared], by simp [severityEnumSpec]⟩

/-- Claim C5 as amended: the builder applies no local severity validation —
every parsed response is returned unchanged, whatever its severity string;
only transport failures (non-success response, missing content) become
errors; and the schema openai.ts declares to the external service permits
"fail" and omits "critical". -/
theorem severityValidation_amended :
    (∀ insights : AIInsights,
      generateAIInsightsLocal true (some insights) = .ok insights) ∧
    generateAIInsightsLocal false none = .error "OpenAI API error" ∧
    generateAIInsightsLocal true none =
      .error "No content in OpenAI response" ∧
    "fail" ∈ severityEnumDeclared ∧
    "critical" ∉ severityEnumDeclared := by
  refine ⟨fun insights => rfl, rfl, rfl, by simp [severityEnumDeclared],
    by simp [severityEnumDeclared]⟩

/-- A decoder returning the 1×1 black image, for concrete evaluations. -/
def decB : List Nat → Option RasterImage := fun _ => some imgB

/-- Claim C10: the full byte-to-result pipeline is deterministic — two
invocations on the same byte buffers, with the same codec, options and
detector, return equal results; in particular equal diffPixels, equal
mismatchPercentage and identical diffPngBytes. -/
theorem comparePng_deterministic (dec : List Nat → Option RasterImage)
    (enc : RasterImage → List Nat) (o : ClassifyOptions)
    (aaDetect : Nat → Bool) (baselinePng currentPng : List Nat)
    (r₁ r₂ : Except DenoError DiffResult)
    (h₁ : comparePngExactBytes dec enc o aaDetect baselinePng currentPng
      = r₁)
    (h₂ : comparePngExactBytes dec enc o aaDetect baselinePng currentPng
      = r₂) :
    r₁ = r₂ ∧
    ∀ d₁ d₂ : DiffResult, r₁ = .ok d₁ → r₂ = .ok d₂ →
      d₁.diffPixels = d₂.diffPixels ∧
      d₁.mismatchPercentage = d₂.mismatchPercentage ∧
      d₁.diffPngBytes = d₂.diffPngBytes := by
  subst h₁
  subst h₂
  refine ⟨rfl, ?_⟩
  intro d₁ d₂ e₁ e₂
  injection e₁.symm.trans e₂ with h
  subst h
  exact ⟨rfl, rfl, rfl⟩

/-- Witness for C10: two identical concrete invocations agree. -/
theorem comparePng_deterministic_witness :
    comparePngExactBytes decB encDims optsDefault noAA [] [] =
      comparePngExactBytes decB encDims optsDefault noAA [] [] ∧
    (DiffResult.mk 0 0 none).diffPixels =
      (DiffResult.mk 0 0 none).diffPixels ∧
    (DiffResult.mk 0 0 none).mismatchPercentage =
      (DiffResult.mk 0 0 none).mismatchPercentage ∧
    (DiffResult.mk 0 0 none).diffPngBytes =
      (DiffResult.mk 0 0 none).diffPngBytes := by
  have hEval : comparePngExactBytes decB encDims optsDefault noAA [] [] =
      .ok (DiffResult.mk 0 0 none) := by
    norm_num [comparePngExactBytes, decB, comparePngExact, imgB,
      classifyCount, roundTo4, pixelMismatch_self]
  exact ⟨(comparePng_deterministic decB encDims optsDefault noAA [] []
      _ _ rfl rfl).1,
    (comparePng_deterministic decB encDims optsDefault noAA [] []
      _ _ rfl rfl).2 _ _ hEval hEval⟩
